import Mathlib

/-!
Verification development for the OneCare FHIR R4 resource server
(`fhir-api-server.js`) and the mock risk-evaluation functions
(`ai-health-analytics.js` / the dashboard server module).

The JavaScript handlers are shallowly embedded as pure Lean functions:

* request bodies and stored resources become structures whose fields are
  exactly the object fields the handlers read or write (plus an opaque
  `rest` string standing for every other field of the JSON payload, so
  that spread-copying of the body is observable);
* the per-type `Map` objects become association lists with the position
  preserving upsert semantics of a JavaScript `Map`;
* `new Date().toISOString()` and `uuidv4()` become explicit `now` and
  `freshId` parameters of each operation;
* `Math.random()` draws become explicit rational parameters, one per
  call, in call order;
* `parseInt` / `Number.prototype.toString` are modelled for the
  non-negative decimal strings the server itself produces (a digit
  prefix parse; leading sign and whitespace are not modelled), with the
  JavaScript `NaN`-propagation into the printed string kept.

Resource data is modelled well shaped: fields that the handlers
dereference without a guard (for example `coding` below a present
`category` entry) are represented as present.
-/

namespace OneCare

/-- A coding element; the handlers only ever read its `code` field. -/
structure Coding where
  code : String
deriving DecidableEq

/-- A codeable concept: a list of codings, as dereferenced by the search
filters. -/
structure CodeableConcept where
  coding : List Coding
deriving DecidableEq

/-- The `subject` object of an Observation or Condition; the handlers
only read `subject.reference`, which may be absent. -/
structure SubjectRef where
  reference : Option String
deriving DecidableEq

/-- A single entry of a Patient `name` array: the fields the Patient
search dereferences. -/
structure HumanName where
  given : List String
  family : String
deriving DecidableEq

/-- The `meta` object a request body may carry; each field may be
absent.  In the handlers this object is spread into the server-assigned
meta, so present fields override the server values. -/
structure BodyMeta where
  versionId : Option String
  lastUpdated : Option String
deriving DecidableEq

/-- The `meta` object of a stored resource: after create or update both
fields are definite strings. -/
structure ResMeta where
  versionId : String
  lastUpdated : String
deriving DecidableEq

/-- A request body: the JSON object fields the handlers read, each
optional exactly as in duck-typed JavaScript, plus the opaque remainder
`rest` of the payload (spread-copied verbatim by create and update). -/
structure Body where
  resourceType : Option String := none
  id : Option String := none
  meta : Option BodyMeta := none
  subject : Option SubjectRef := none
  category : Option (List CodeableConcept) := none
  code : Option CodeableConcept := none
  effectiveDateTime : Option String := none
  clinicalStatus : Option CodeableConcept := none
  onsetDateTime : Option String := none
  name : List HumanName := []
  birthDate : Option String := none
  gender : Option String := none
  rest : String := ""
deriving DecidableEq

/-- A stored resource: the body fields spread-copied, with the `id` and
`meta` fields overridden by the handler (`{...body, id, meta}`). -/
structure Stored where
  resourceType : Option String := none
  id : String
  meta : ResMeta
  subject : Option SubjectRef := none
  category : Option (List CodeableConcept) := none
  code : Option CodeableConcept := none
  effectiveDateTime : Option String := none
  clinicalStatus : Option CodeableConcept := none
  onsetDateTime : Option String := none
  name : List HumanName := []
  birthDate : Option String := none
  gender : Option String := none
  rest : String := ""
deriving DecidableEq

/-- One per-type resource table (`this.resources.Patient` etc.),
modelled as an association list in insertion order. -/
def ResMap := List (String × Stored)
deriving DecidableEq

/-- Lookup, as `Map.prototype.get`: the value at the key, if present. -/
def assocGet : List (String × Stored) → String → Option Stored
  | [], _ => none
  | e :: es, k => if e.1 = k then some e.2 else assocGet es k

/-- Upsert, as `Map.prototype.set`: replace in place when the key is
present, append otherwise (a JavaScript `Map` keeps insertion order). -/
def assocSet : List (String × Stored) → String → Stored → List (String × Stored)
  | [], k, v => [(k, v)]
  | e :: es, k, v => if e.1 = k then (k, v) :: es else e :: assocSet es k v

/-- Values in insertion order, as `Array.from(map.values())`. -/
def assocValues (m : List (String × Stored)) : List Stored :=
  m.map Prod.snd

/-- The decimal digit character for a digit value below ten. -/
def digitChar (d : Nat) : Char :=
  Char.ofNat (48 + d)

/-- The numeric value of a decimal digit character. -/
def digitVal (c : Char) : Nat :=
  c.toNat - 48

/-- Fuel-driven digit expansion (structural recursion so the kernel can
evaluate it; the fuel is always ample). -/
def natCharsAux : Nat → Nat → List Char
  | 0, _ => []
  | fuel + 1, n =>
    if n < 10 then [digitChar n]
    else natCharsAux fuel (n / 10) ++ [digitChar (n % 10)]

/-- Decimal digits of a natural number, most significant first; this is
how `Number.prototype.toString` prints the non-negative integers the
server produces. -/
def natChars (n : Nat) : List Char :=
  natCharsAux (n + 1) n

/-- Decimal rendering of a natural number (`(...).toString()`). -/
def natRepr (n : Nat) : String :=
  String.mk (natChars n)

/-- JavaScript `parseInt` on the strings this server handles: the value
of the maximal leading digit prefix, `none` (that is, `NaN`) when there
is no leading digit.  Leading whitespace and signs are not modelled. -/
def jsParseInt (s : String) : Option Nat :=
  let ds := s.data.takeWhile Char.isDigit
  if ds.isEmpty then none
  else some (ds.foldl (fun a c => a * 10 + digitVal c) 0)

/-- The update handler's version bump
`(parseInt(old.meta.versionId) + 1).toString()`; when the old version
does not parse, `NaN + 1` prints as the string `NaN`. -/
def nextVersionId (v : String) : String :=
  match jsParseInt v with
  | some n => natRepr (n + 1)
  | none => "NaN"

/-- JavaScript truthiness of an optional string: absent and the empty
string are falsy. -/
def strTruthy : Option String → Bool
  | none => false
  | some s => !(s = "")

/-- The pattern `a || b` on an optional string, as in
`patientData.id || uuidv4()`: the string when truthy, else the
default. -/
def jsOr (o : Option String) (dflt : String) : String :=
  match o with
  | some s => if s = "" then dflt else s
  | none => dflt

/-- The typed failures of the service: the 400 `OperationOutcome` with
issue code `invalid` and the 404 one with issue code `not-found`; the
carried string is the `details.text` message. -/
inductive Failure where
  | invalidResource (msg : String)
  | notFound (msg : String)
deriving DecidableEq

/-- Server-assigned meta merged with the body's meta, as the object
literal `{ versionId: defVid, lastUpdated: now, ...body.meta }`: a
field of `body.meta`, when present, overrides the server value. -/
def mkMeta (bm : Option BodyMeta) (defVid now : String) : ResMeta :=
  { versionId := (bm.bind BodyMeta.versionId).getD defVid
    lastUpdated := (bm.bind BodyMeta.lastUpdated).getD now }

/-- The stored object `{ ...body, id, meta }`: every body field
spread-copied, with `id` and `meta` overridden. -/
def storedOfBody (b : Body) (id : String) (meta : ResMeta) : Stored :=
  { resourceType := b.resourceType
    id := id
    meta := meta
    subject := b.subject
    category := b.category
    code := b.code
    effectiveDateTime := b.effectiveDateTime
    clinicalStatus := b.clinicalStatus
    onsetDateTime := b.onsetDateTime
    name := b.name
    birthDate := b.birthDate
    gender := b.gender
    rest := b.rest }

/-- The create handler shared by `createPatient`, `createObservation`
and `createCondition` (they are textually identical up to the resource
type): reject a body whose `resourceType` differs from the endpoint's
type, otherwise take `body.id || uuidv4()` as the id, build
`{ ...body, id, meta: { versionId: "1", lastUpdated: now, ...body.meta } }`
and upsert it.  The result pairs the response with the table after the
call (unchanged on rejection, since the handler returns early). -/
def fhirCreate (t freshId now : String) (b : Body) (m : ResMap) :
    Except Failure Stored × ResMap :=
  if b.resourceType ≠ some t then
    (.error (.invalidResource ("Resource must be of type " ++ t)), m)
  else
    let id := jsOr b.id freshId
    let r := storedOfBody b id (mkMeta b.meta "1" now)
    (.ok r, assocSet m id r)

/-- The read handler shared by `getPatient`, `getObservation`,
`getCondition` and `getMedication`: 404 when the id is absent from the
table, else the stored resource. -/
def fhirRead (t id : String) (m : ResMap) : Except Failure Stored :=
  match assocGet m id with
  | none => .error (.notFound (t ++ " " ++ id ++ " not found"))
  | some r => .ok r

/-- The update handler (`updatePatient`): 404 when the id is absent,
otherwise build
`{ ...body, id, meta: { versionId: (parseInt(old.meta.versionId) + 1).toString(), lastUpdated: now, ...body.meta } }`
and upsert it.  No `resourceType` check is performed.  The result pairs
the response with the table after the call. -/
def fhirUpdate (t id now : String) (b : Body) (m : ResMap) :
    Except Failure Stored × ResMap :=
  match assocGet m id with
  | none => (.error (.notFound (t ++ " " ++ id ++ " not found")), m)
  | some old =>
    let r := storedOfBody b id (mkMeta b.meta (nextVersionId old.meta.versionId) now)
    (.ok r, assocSet m id r)

/-- One `if (param) list = list.filter(pred(param))` step of a search
handler: the filter runs only when the query parameter is truthy. -/
def applyFilter (q : Option String) (f : String → Stored → Bool)
    (l : List Stored) : List Stored :=
  match q with
  | none => l
  | some s => if s = "" then l else l.filter (f s)

/-- The `patient` filter: `o.subject && o.subject.reference === "Patient/" + patient`. -/
def subjectMatches (pid : String) (r : Stored) : Bool :=
  match r.subject with
  | none => false
  | some s => s.reference = some ("Patient/" ++ pid)

/-- The `category` filter:
`o.category && o.category.some(cat => cat.coding.some(c => c.code === category))`. -/
def categoryMatches (q : String) (r : Stored) : Bool :=
  match r.category with
  | none => false
  | some cats => cats.any (fun cat => cat.coding.any (fun cd => cd.code = q))

/-- Is the pattern an initial segment of the character list? -/
def leadsWith : List Char → List Char → Bool
  | [], _ => true
  | _ :: _, [] => false
  | a :: as, b :: bs => a = b && leadsWith as bs

/-- JavaScript `String.prototype.startsWith`. -/
def strStarts (s pre : String) : Bool :=
  leadsWith pre.data s.data

/-- The `date` filter: `o.effectiveDateTime && o.effectiveDateTime.startsWith(date)`. -/
def dateMatches (q : String) (r : Stored) : Bool :=
  match r.effectiveDateTime with
  | none => false
  | some d => strStarts d q

/-- The `code` filter: `o.code && o.code.coding.some(c => c.code === code)`. -/
def codeMatches (q : String) (r : Stored) : Bool :=
  match r.code with
  | none => false
  | some cc => cc.coding.any (fun cd => cd.code = q)

/-- The `clinical-status` filter of the Condition search. -/
def clinicalStatusMatches (q : String) (r : Stored) : Bool :=
  match r.clinicalStatus with
  | none => false
  | some cc => cc.coding.any (fun cd => cd.code = q)

/-- The `onset-date` filter of the Condition search. -/
def onsetDateMatches (q : String) (r : Stored) : Bool :=
  match r.onsetDateTime with
  | none => false
  | some d => strStarts d q

/-- Substring test on character lists, as `String.prototype.includes`. -/
def charsInclude (needle : List Char) : List Char → Bool
  | [] => needle.isEmpty
  | c :: cs => leadsWith needle (c :: cs) || charsInclude needle cs

/-- ASCII lowercasing, as `String.prototype.toLowerCase` on the ASCII
strings this server compares. -/
def strLower (s : String) : String :=
  String.mk (s.data.map Char.toLower)

/-- Case-insensitive substring test
`hay.toLowerCase().includes(needle.toLowerCase())`. -/
def strIncludesCI (hay needle : String) : Bool :=
  charsInclude (strLower needle).data (strLower hay).data

/-- The `name` filter of the Patient search:
`p.name.some(n => n.given.some(g => g.toLowerCase().includes(q)) || n.family.toLowerCase().includes(q))`
(with `q` lowercased). -/
def nameMatches (q : String) (p : Stored) : Bool :=
  p.name.any (fun n =>
    n.given.any (fun g => strIncludesCI g q) || strIncludesCI n.family q)

/-- The `birthdate` filter: `p.birthDate === birthdate`. -/
def birthdateMatches (q : String) (p : Stored) : Bool :=
  p.birthDate = some q

/-- The `gender` filter: `p.gender === gender`. -/
def genderMatches (q : String) (p : Stored) : Bool :=
  p.gender = some q

/-- A search response: a FHIR Bundle of type `searchset`.  Each `entry`
element of the JSON response is the wrapper `{ resource }` around one
stored resource, so `entry` is modelled as the list of resources. -/
structure Bundle where
  resourceType : String
  type : String
  total : Nat
  entry : List Stored
deriving DecidableEq

/-- Pagination and packaging shared by every search handler: `total` is
the match count before pagination, `entry` is
`matches.slice(offset, offset + count)` with the destructuring defaults
`_count = 20`, `_offset = 0` (the numeric query values are modelled
already parsed). -/
def mkSearchBundle (l : List Stored) (count offset : Option Nat) : Bundle :=
  { resourceType := "Bundle"
    type := "searchset"
    total := l.length
    entry := (l.drop (offset.getD 0)).take (count.getD 20) }

/-- The in-memory store `this.resources`, restricted to the four tables
the routes reach (the constructor also allocates tables for Procedure,
AllergyIntolerance, FamilyMemberHistory, Immunization and Medication
creation, but no route writes or reads them). -/
structure Store where
  patients : ResMap
  observations : ResMap
  conditions : ResMap
  medications : ResMap
deriving DecidableEq

/-- The `searchPatients` handler. -/
def searchPatients (nameQ birthdate gender : Option String)
    (count offset : Option Nat) (s : Store) : Bundle :=
  let l := assocValues s.patients
  let l := applyFilter nameQ nameMatches l
  let l := applyFilter birthdate birthdateMatches l
  let l := applyFilter gender genderMatches l
  mkSearchBundle l count offset

/-- The `searchObservations` handler. -/
def searchObservations (patient category date code : Option String)
    (count offset : Option Nat) (s : Store) : Bundle :=
  let l := assocValues s.observations
  let l := applyFilter patient subjectMatches l
  let l := applyFilter category categoryMatches l
  let l := applyFilter date dateMatches l
  let l := applyFilter code codeMatches l
  mkSearchBundle l count offset

/-- The `searchConditions` handler. -/
def searchConditions (patient clinicalStatus onsetDate : Option String)
    (count offset : Option Nat) (s : Store) : Bundle :=
  let l := assocValues s.conditions
  let l := applyFilter patient subjectMatches l
  let l := applyFilter clinicalStatus clinicalStatusMatches l
  let l := applyFilter onsetDate onsetDateMatches l
  mkSearchBundle l count offset

/-- The `searchMedications` handler (no filters). -/
def searchMedications (count offset : Option Nat) (s : Store) : Bundle :=
  mkSearchBundle (assocValues s.medications) count offset

/-- The `createPatient` handler acting on the whole store. -/
def createPatient (freshId now : String) (b : Body) (s : Store) :
    Except Failure Stored × Store :=
  let p := fhirCreate "Patient" freshId now b s.patients
  (p.1, { s with patients := p.2 })

/-- The `createObservation` handler acting on the whole store. -/
def createObservation (freshId now : String) (b : Body) (s : Store) :
    Except Failure Stored × Store :=
  let p := fhirCreate "Observation" freshId now b s.observations
  (p.1, { s with observations := p.2 })

/-- The `createCondition` handler acting on the whole store. -/
def createCondition (freshId now : String) (b : Body) (s : Store) :
    Except Failure Stored × Store :=
  let p := fhirCreate "Condition" freshId now b s.conditions
  (p.1, { s with conditions := p.2 })

/-- The `updatePatient` handler acting on the whole store (the only
update route the server registers). -/
def updatePatient (id now : String) (b : Body) (s : Store) :
    Except Failure Stored × Store :=
  let p := fhirUpdate "Patient" id now b s.patients
  (p.1, { s with patients := p.2 })

/-- The `getPatient` handler. -/
def getPatient (id : String) (s : Store) : Except Failure Stored :=
  fhirRead "Patient" id s.patients

/-- The `getObservation` handler. -/
def getObservation (id : String) (s : Store) : Except Failure Stored :=
  fhirRead "Observation" id s.observations

/-- The `getCondition` handler. -/
def getCondition (id : String) (s : Store) : Except Failure Stored :=
  fhirRead "Condition" id s.conditions

/-- The `getMedication` handler. -/
def getMedication (id : String) (s : Store) : Except Failure Stored :=
  fhirRead "Medication" id s.medications

/-- The `patientEverything` handler (`GET /fhir/Patient/:id/$everything`):
404 when the patient is absent; otherwise a Bundle whose entries are the
patient followed by every Observation and then every Condition whose
`subject.reference` is `Patient/{id}`, with `total` the entry count. -/
def patientEverything (id : String) (s : Store) : Except Failure Bundle :=
  match assocGet s.patients id with
  | none => .error (.notFound ("Patient " ++ id ++ " not found"))
  | some p =>
    let obs := (assocValues s.observations).filter (subjectMatches id)
    let conds := (assocValues s.conditions).filter (subjectMatches id)
    let entries := p :: (obs ++ conds)
    .ok { resourceType := "Bundle"
          type := "searchset"
          total := entries.length
          entry := entries }

/-- One request against the FHIR resource service: exactly the routes
`setupRoutes` registers (besides `/fhir/metadata`, which touches no
resource).  Creates carry the `uuidv4()` draw and the clock reading as
explicit arguments; no route deletes. -/
inductive Op where
  | getPatientOp (id : String)
  | searchPatientsOp (nameQ birthdate gender : Option String) (count offset : Option Nat)
  | createPatientOp (freshId now : String) (b : Body)
  | updatePatientOp (id now : String) (b : Body)
  | getObservationOp (id : String)
  | searchObservationsOp (patient category date code : Option String) (count offset : Option Nat)
  | createObservationOp (freshId now : String) (b : Body)
  | getConditionOp (id : String)
  | searchConditionsOp (patient clinicalStatus onsetDate : Option String) (count offset : Option Nat)
  | createConditionOp (freshId now : String) (b : Body)
  | getMedicationOp (id : String)
  | searchMedicationsOp (count offset : Option Nat)
  | everythingOp (id : String)

/-- The store after one request (reads and searches leave it alone). -/
def applyOp (o : Op) (s : Store) : Store :=
  match o with
  | .getPatientOp _ => s
  | .searchPatientsOp _ _ _ _ _ => s
  | .createPatientOp f now b => (createPatient f now b s).2
  | .updatePatientOp id now b => (updatePatient id now b s).2
  | .getObservationOp _ => s
  | .searchObservationsOp _ _ _ _ _ _ => s
  | .createObservationOp f now b => (createObservation f now b s).2
  | .getConditionOp _ => s
  | .searchConditionsOp _ _ _ _ _ => s
  | .createConditionOp f now b => (createCondition f now b s).2
  | .getMedicationOp _ => s
  | .searchMedicationsOp _ _ => s
  | .everythingOp _ => s

/-- The store after a sequence of requests. -/
def applyOps (ops : List Op) (s : Store) : Store :=
  ops.foldl (fun a o => applyOp o a) s

/-- The four resource kinds the routes reach. -/
inductive RType where
  | patient
  | observation
  | condition
  | medication
deriving DecidableEq

/-- The table of the store holding one resource kind. -/
def Store.mapFor (s : Store) : RType → ResMap
  | .patient => s.patients
  | .observation => s.observations
  | .condition => s.conditions
  | .medication => s.medications

/-- The display name a read of one resource kind uses in messages. -/
def RType.tname : RType → String
  | .patient => "Patient"
  | .observation => "Observation"
  | .condition => "Condition"
  | .medication => "Medication"

/-- The read of a (resourceType, id) pair against the store. -/
def readFor (t : RType) (id : String) (s : Store) : Except Failure Stored :=
  fhirRead t.tname id (s.mapFor t)

/-- One risk factor pushed by the analytics module. -/
structure RiskFactor where
  type : String
  description : String
  impact : String
deriving DecidableEq

/-- The value `{ riskScore, factors }` returned by the risk helpers of
`ai-health-analytics.js`. -/
structure RiskResult where
  riskScore : Nat
  factors : List RiskFactor
deriving DecidableEq

/-- The `simulateLifestyleRisk` method of `ai-health-analytics.js`.  The
`patientData` argument is ignored by the source (kept here as an opaque
string); `d1`–`d4` are the four `Math.random()` draws in call order
(smoking, sedentary, poorDiet, stress; the stress draw is taken but
never used afterwards). -/
def simulateLifestyleRisk (patientData : String) (d1 d2 d3 d4 : ℚ) : RiskResult :=
  let _ := patientData
  let _ := d4
  let smoking := d1 < 0.15
  let sedentary := d2 < 0.3
  let poorDiet := d3 < 0.4
  { riskScore :=
      (if smoking then 25 else 0) + (if sedentary then 15 else 0) +
        (if poorDiet then 10 else 0)
    factors :=
      (if smoking then
        [{ type := "smoking"
           description := "Smoking significantly increases health risks"
           impact := "high" }] else []) ++
      (if sedentary then
        [{ type := "physical_activity"
           description := "Low physical activity level"
           impact := "medium" }] else []) ++
      (if poorDiet then
        [{ type := "nutrition"
           description := "Suboptimal dietary patterns"
           impact := "medium" }] else []) }

/-- One fixed recommendation of the mock ML assessment. -/
structure Recommendation where
  id : String
  title : String
  priority : Nat
  reason : String
deriving DecidableEq

/-- The `risks` object of the mock ML assessment. -/
structure MLRisks where
  diabetes : ℚ
  cardiovascular : ℚ
  cancer : ℚ
  bone_health : ℚ
deriving DecidableEq

/-- The `mlAssessment` value built by `calculateRiskAssessment`. -/
structure MLAssessment where
  id : String
  userId : String
  patientData : String
  risks : MLRisks
  recommendations : List Recommendation
  confidence : ℚ
  timestamp : String
deriving DecidableEq

/-- The `calculateRiskAssessment` handler of the dashboard server: the
assessment it builds and returns.  `uuid` is the `generateUUID()` draw,
`now` the clock reading, and `d1`–`d4` the four `Math.random()` draws
scaling each risk (the handler also stores the assessment in
`database.mlAssessments` under `uuid` and appends an audit log entry;
the returned value is what the response carries). -/
def calculateRiskAssessment (uuid userId now patientData : String)
    (d1 d2 d3 d4 : ℚ) : MLAssessment :=
  { id := uuid
    userId := userId
    patientData := patientData
    risks :=
      { diabetes := d1 * 0.6
        cardiovascular := d2 * 0.5
        cancer := d3 * 0.4
        bone_health := d4 * 0.3 }
    recommendations :=
      [{ id := "diabetes-screening"
         title := "Diabetes Screening"
         priority := 8
         reason := "Elevated risk factors detected" }]
    confidence := 0.87
    timestamp := now }

/-- Does a resource pass one optional filter?  True when the parameter
is not truthy (that filter is skipped), else the filter predicate.
Used to state, as a single predicate, which resources a search call
counts as matching. -/
def passes (q : Option String) (f : String → Stored → Bool) (r : Stored) : Bool :=
  match q with
  | none => true
  | some s => if s = "" then true else f s r

/-- A stored Observation matches an Observation search exactly when it
passes every active filter. -/
def obsMatches (patient category date code : Option String) (r : Stored) : Bool :=
  ((passes patient subjectMatches r && passes category categoryMatches r) &&
    passes date dateMatches r) && passes code codeMatches r

/-- A stored Condition matches a Condition search exactly when it
passes every active filter. -/
def condMatches (patient clinicalStatus onsetDate : Option String) (r : Stored) : Bool :=
  (passes patient subjectMatches r && passes clinicalStatus clinicalStatusMatches r) &&
    passes onsetDate onsetDateMatches r

/-- A stored Patient matches a Patient search exactly when it passes
every active filter. -/
def patMatches (nameQ birthdate gender : Option String) (r : Stored) : Bool :=
  (passes nameQ nameMatches r && passes birthdate birthdateMatches r) &&
    passes gender genderMatches r

/-- The patient table after a sequence of `updatePatient` calls against
one id, each step carrying its clock reading and body. -/
def iterateUpdates (t id : String) (steps : List (String × Body)) (m : ResMap) : ResMap :=
  steps.foldl (fun a p => (fhirUpdate t id p.1 p.2 a).2) m

/-- An empty store. -/
def emptyStore : Store :=
  { patients := [], observations := [], conditions := [], medications := [] }

/-- A sample clock reading. -/
def exNow : String := "2024-02-02T00:00:00Z"

/-- A plain valid Patient create body carrying its own id and no meta. -/
def exPatientBody : Body :=
  { resourceType := some "Patient"
    id := some "p1"
    gender := some "male"
    rest := "patient-payload" }

/-- A Patient create body whose meta carries its own `versionId` and
`lastUpdated`. -/
def exBodyMetaOverride : Body :=
  { resourceType := some "Patient"
    id := some "p1"
    meta := some { versionId := some "7", lastUpdated := some "1999-01-01T00:00:00Z" }
    rest := "override-payload" }

/-- An update body whose meta carries `versionId` `"0"`. -/
def exUpdBodyMetaZero : Body :=
  { resourceType := some "Patient"
    meta := some { versionId := some "0", lastUpdated := none }
    rest := "upd-payload" }

/-- A create body reusing the stored id `"p1"` and carrying meta
`versionId` `"9"`. -/
def exBodyReuseId : Body :=
  { resourceType := some "Patient"
    id := some "p1"
    meta := some { versionId := some "9", lastUpdated := none }
    rest := "reuse-payload" }

/-- A body whose `resourceType` is not `"Patient"`. -/
def exWrongTypeBody : Body :=
  { resourceType := some "Observation"
    id := some "p9"
    rest := "wrong-type-payload" }

/-- A stored Patient at id `"p1"` with versionId `"3"`. -/
def exStoredP1 : Stored :=
  { resourceType := some "Patient"
    id := "p1"
    meta := { versionId := "3", lastUpdated := "2024-01-01T00:00:00Z" }
    gender := some "male"
    rest := "patient-payload" }

/-- A store holding only the Patient `"p1"`. -/
def exStore : Store :=
  { patients := [("p1", exStoredP1)]
    observations := []
    conditions := []
    medications := [] }

/-- The `category` value of a laboratory Observation. -/
def labCategory : List CodeableConcept :=
  [{ coding := [{ code := "laboratory" }] }]

/-- A stored laboratory Observation with the given id and subject
reference. -/
def exObs (oid pref : String) : Stored :=
  { resourceType := some "Observation"
    id := oid
    meta := { versionId := "1", lastUpdated := exNow }
    subject := some { reference := some pref }
    category := some labCategory
    rest := "obs-payload" }

/-- A stored Condition with the given id and subject reference. -/
def exCond (cid pref : String) : Stored :=
  { resourceType := some "Condition"
    id := cid
    meta := { versionId := "1", lastUpdated := exNow }
    subject := some { reference := some pref }
    rest := "cond-payload" }

/-- A store whose Observation table holds three laboratory Observations
of Patient 123 and one of another patient: the search scenario store. -/
def exScenarioStore : Store :=
  { patients := []
    observations :=
      [("o1", exObs "o1" "Patient/123"),
       ("o2", exObs "o2" "Patient/123"),
       ("o3", exObs "o3" "Patient/123"),
       ("o4", exObs "o4" "Patient/999")]
    conditions := []
    medications := [] }

/-- A store holding Patient `"p1"`, one Observation and one Condition of
that patient, and one Observation of another patient. -/
def exEverythingStore : Store :=
  { patients := [("p1", exStoredP1)]
    observations :=
      [("o1", exObs "o1" "Patient/p1"),
       ("o4", exObs "o4" "Patient/999")]
    conditions := [("c1", exCond "c1" "Patient/p1")]
    medications := [] }

/-- The `meta.versionId` of a successful response, `none` on failure
(used to observe stored version ids on concrete runs). -/
def resultVersionId : Except Failure Stored → Option String
  | .ok r => some r.meta.versionId
  | .error _ => none

/-- The `meta.lastUpdated` of a successful response, `none` on failure. -/
def resultLastUpdated : Except Failure Stored → Option String
  | .ok r => some r.meta.lastUpdated
  | .error _ => none

/-- The stored version of the resource at one key of a table, parsed as
a number (used to observe version evolution on concrete runs). -/
def tableVersionNat (m : ResMap) (k : String) : Option Nat :=
  match assocGet m k with
  | none => none
  | some r => jsParseInt r.meta.versionId

/-- An update body carrying no meta (the server then controls the
version bump and timestamp). -/
def exPlainUpdBody : Body :=
  { resourceType := some "Patient"
    id := some "ignored-id"
    gender := some "female"
    rest := "plain-upd-payload" }

/-- A second sample clock reading, later than `exNow`. -/
def exLater : String := "2024-03-03T00:00:00Z"

/-! Helper lemmas about the store and the decimal round trip. -/

theorem assocGet_assocSet_self (m : List (String × Stored)) (k : String) (v : Stored) :
    assocGet (assocSet m k v) k = some v := by
  induction m with
  | nil => simp [assocSet, assocGet]
  | cons e es ih =>
    by_cases h : e.1 = k
    · simp [assocSet, h, assocGet]
    · simp [assocSet, h, assocGet, ih]

theorem assocGet_assocSet_ne (m : List (String × Stored)) (k k' : String) (v : Stored)
    (h : k' ≠ k) : assocGet (assocSet m k v) k' = assocGet m k' := by
  induction m with
  | nil => simp [assocSet, assocGet, Ne.symm h]
  | cons e es ih =>
    by_cases h1 : e.1 = k
    · by_cases h2 : e.1 = k' <;>
        simp_all [assocSet, assocGet, Ne.symm h]
    · by_cases h2 : e.1 = k' <;> simp [assocSet, assocGet, h1, h2, h, ih]

theorem assocGet_isSome_assocSet (m : List (String × Stored)) (k k' : String) (v : Stored)
    (h : (assocGet m k').isSome) : (assocGet (assocSet m k v) k').isSome := by
  by_cases hk : k' = k
  · subst hk; simp [assocGet_assocSet_self]
  · rw [assocGet_assocSet_ne m k k' v hk]; exact h

theorem digitChar_isDigit (d : Nat) (h : d < 10) : (digitChar d).isDigit = true := by
  interval_cases d <;> decide

theorem digitVal_digitChar (d : Nat) (h : d < 10) : digitVal (digitChar d) = d := by
  interval_cases d <;> decide

theorem natCharsAux_digits :
    ∀ fuel n : Nat, n < fuel → ∀ c ∈ natCharsAux fuel n, c.isDigit := by
  intro fuel
  induction fuel with
  | zero => intro n h; omega
  | succ fuel ih =>
    intro n h c hc
    simp only [natCharsAux] at hc
    split at hc
    · rw [List.mem_singleton] at hc
      subst hc
      exact digitChar_isDigit n (by omega)
    · rcases List.mem_append.1 hc with h1 | h2
      · exact ih (n / 10) (by omega) c h1
      · rw [List.mem_singleton] at h2
        subst h2
        exact digitChar_isDigit (n % 10) (Nat.mod_lt n (by omega))

theorem natCharsAux_ne_nil (fuel n : Nat) (h : n < fuel) : natCharsAux fuel n ≠ [] := by
  cases fuel with
  | zero => omega
  | succ fuel =>
    simp only [natCharsAux]
    split
    · simp
    · simp

theorem foldl_digits_natCharsAux :
    ∀ fuel n : Nat, n < fuel → ∀ a,
      (natCharsAux fuel n).foldl (fun a c => a * 10 + digitVal c) a =
        a * 10 ^ (natCharsAux fuel n).length + n := by
  intro fuel
  induction fuel with
  | zero => intro n h; omega
  | succ fuel ih =>
    intro n h a
    simp only [natCharsAux]
    split
    · next hlt =>
      simp [List.foldl, digitVal_digitChar n hlt]
    · next hge =>
      rw [List.foldl_append, List.length_append]
      rw [ih (n / 10) (by omega) a]
      simp only [List.foldl, List.length_singleton]
      rw [digitVal_digitChar (n % 10) (Nat.mod_lt n (by omega))]
      rw [pow_succ]
      ring_nf
      omega

theorem natChars_digits (n : Nat) : ∀ c ∈ natChars n, c.isDigit :=
  natCharsAux_digits (n + 1) n (by omega)

theorem natChars_ne_nil (n : Nat) : natChars n ≠ [] :=
  natCharsAux_ne_nil (n + 1) n (by omega)

theorem foldl_digits_natChars (n : Nat) :
    ∀ a, (natChars n).foldl (fun a c => a * 10 + digitVal c) a =
      a * 10 ^ (natChars n).length + n :=
  foldl_digits_natCharsAux (n + 1) n (by omega)

theorem takeWhile_of_all {p : Char → Bool} :
    ∀ l : List Char, (∀ c ∈ l, p c) → l.takeWhile p = l := by
  intro l
  induction l with
  | nil => intro _; rfl
  | cons c cs ih =>
    intro h
    rw [List.takeWhile_cons]
    rw [h c (List.mem_cons_self c cs)]
    simp [ih fun x hx => h x (List.mem_cons_of_mem c hx)]

theorem jsParseInt_natRepr (n : Nat) : jsParseInt (natRepr n) = some n := by
  unfold jsParseInt natRepr
  have hdata : (String.mk (natChars n)).data = natChars n := rfl
  rw [hdata, takeWhile_of_all (natChars n) (natChars_digits n)]
  rw [if_neg (by simpa using natChars_ne_nil n)]
  rw [foldl_digits_natChars n 0]
  simp

theorem applyFilter_eq_filter (q : Option String) (f : String → Stored → Bool)
    (l : List Stored) : applyFilter q f l = l.filter (passes q f) := by
  cases q with
  | none => exact (List.filter_eq_self.mpr fun a _ => rfl).symm
  | some s =>
    by_cases h : s = ""
    · subst h
      exact (List.filter_eq_self.mpr fun a _ => rfl).symm
    · simp only [applyFilter, h, if_neg]
      exact List.filter_congr fun a _ => by simp [passes, h]

theorem jsOr_irrel (o : Option String) (d d' : String) (h : strTruthy o = true) :
    jsOr o d = jsOr o d' := by
  cases o with
  | none => simp [strTruthy] at h
  | some s =>
    simp [strTruthy] at h
    simp [jsOr, h]

theorem fhirCreate_preserves (t f now : String) (b : Body) (m : ResMap) (k : String)
    (h : (assocGet m k).isSome) : (assocGet (fhirCreate t f now b m).2 k).isSome := by
  unfold fhirCreate
  split
  · exact h
  · exact assocGet_isSome_assocSet _ _ _ _ h

theorem fhirUpdate_preserves (t id now : String) (b : Body) (m : ResMap) (k : String)
    (h : (assocGet m k).isSome) : (assocGet (fhirUpdate t id now b m).2 k).isSome := by
  unfold fhirUpdate
  cases hg : assocGet m id with
  | none => simp only [hg]; exact h
  | some old => simp only [hg]; exact assocGet_isSome_assocSet _ _ _ _ h

theorem applyOp_preserves (o : Op) (t : RType) (id : String) (s : Store)
    (h : (assocGet (s.mapFor t) id).isSome) :
    (assocGet ((applyOp o s).mapFor t) id).isSome := by
  cases o <;> cases t <;>
    simp only [applyOp, createPatient, createObservation, createCondition,
      updatePatient, Store.mapFor] at h ⊢ <;>
    first
      | exact h
      | exact fhirCreate_preserves _ _ _ _ _ _ h
      | exact fhirUpdate_preserves _ _ _ _ _ _ h

theorem applyOps_preserves (ops : List Op) (t : RType) (id : String) :
    ∀ s : Store, (assocGet (s.mapFor t) id).isSome →
      (assocGet ((applyOps ops s).mapFor t) id).isSome := by
  induction ops with
  | nil => intro s h; exact h
  | cons o os ih =>
    intro s h
    exact ih (applyOp o s) (applyOp_preserves o t id s h)

theorem iterateUpdates_meta (tn id : String) :
    ∀ (steps : List (String × Body)) (m : ResMap) (old : Stored) (n : Nat),
      (∀ p ∈ steps, (p.2).meta = none) →
      assocGet m id = some old →
      jsParseInt old.meta.versionId = some n →
      ∃ r, assocGet (iterateUpdates tn id steps m) id = some r ∧
        jsParseInt r.meta.versionId = some (n + steps.length) ∧
        r.meta.lastUpdated = steps.foldl (fun _ p => p.1) old.meta.lastUpdated := by
  intro steps
  induction steps with
  | nil =>
    intro m old n _ hget hv
    exact ⟨old, hget, by simpa using hv, rfl⟩
  | cons p rest ih =>
    intro m old n hmeta hget hv
    have hpm : (p.2).meta = none := hmeta p (List.mem_cons_self _ _)
    have hget1 : assocGet (fhirUpdate tn id p.1 p.2 m).2 id =
        some (storedOfBody p.2 id (mkMeta (p.2).meta (nextVersionId old.meta.versionId) p.1)) := by
      simp only [fhirUpdate, hget]
      exact assocGet_assocSet_self _ _ _
    have hv1 : jsParseInt (storedOfBody p.2 id
        (mkMeta (p.2).meta (nextVersionId old.meta.versionId) p.1)).meta.versionId =
        some (n + 1) := by
      simp [storedOfBody, mkMeta, hpm, nextVersionId, hv, jsParseInt_natRepr]
    have hl1 : (storedOfBody p.2 id
        (mkMeta (p.2).meta (nextVersionId old.meta.versionId) p.1)).meta.lastUpdated = p.1 := by
      simp [storedOfBody, mkMeta, hpm]
    obtain ⟨r, hgr, hvr, hlr⟩ := ih (fhirUpdate tn id p.1 p.2 m).2 _ (n + 1)
      (fun q hq => hmeta q (List.mem_cons_of_mem _ hq)) hget1 hv1
    refine ⟨r, hgr, ?_, ?_⟩
    · rw [hvr]
      simp only [List.length_cons, Option.some.injEq]
      omega
    · rw [hlr, hl1]
      simp [List.foldl_cons]

theorem searchObservations_eq (patient category date code : Option String)
    (count offset : Option Nat) (s : Store) :
    searchObservations patient category date code count offset s =
      mkSearchBundle ((assocValues s.observations).filter
        (obsMatches patient category date code)) count offset := by
  unfold searchObservations
  simp only [applyFilter_eq_filter, List.filter_filter]
  congr 1
  apply List.filter_congr
  intro r _
  simp [obsMatches, Bool.and_comm, Bool.and_left_comm, Bool.and_assoc]

theorem searchConditions_eq (patient clinicalStatus onsetDate : Option String)
    (count offset : Option Nat) (s : Store) :
    searchConditions patient clinicalStatus onsetDate count offset s =
      mkSearchBundle ((assocValues s.conditions).filter
        (condMatches patient clinicalStatus onsetDate)) count offset := by
  unfold searchConditions
  simp only [applyFilter_eq_filter, List.filter_filter]
  congr 1
  apply List.filter_congr
  intro r _
  simp [condMatches, Bool.and_comm, Bool.and_left_comm, Bool.and_assoc]

theorem searchPatients_eq (nameQ birthdate gender : Option String)
    (count offset : Option Nat) (s : Store) :
    searchPatients nameQ birthdate gender count offset s =
      mkSearchBundle ((assocValues s.patients).filter
        (patMatches nameQ birthdate gender)) count offset := by
  unfold searchPatients
  simp only [applyFilter_eq_filter, List.filter_filter]
  congr 1
  apply List.filter_congr
  intro r _
  simp [patMatches, Bool.and_comm, Bool.and_left_comm, Bool.and_assoc]

/-! Claim theorems. -/

/-- C1 (amended): create rejects a body whose `resourceType` differs
from the endpoint's type with the `InvalidResource` outcome, leaving
the table unchanged; otherwise it assigns `body.id || freshId` as the
id, spread-copies the payload, stores the resource, and returns it;
the stored `versionId` is `"1"` and `lastUpdated` the current time
unless the body's own `meta` carries those fields, which take
precedence (the body meta is spread after the server defaults); every
other table entry is untouched. -/
theorem create_characterization (t fid now : String) (b : Body) (m : ResMap) :
    (b.resourceType ≠ some t →
      fhirCreate t fid now b m =
        (Except.error (Failure.invalidResource ("Resource must be of type " ++ t)), m)) ∧
    (b.resourceType = some t →
      ∃ r, (fhirCreate t fid now b m).1 = Except.ok r ∧
        r.id = jsOr b.id fid ∧
        r.meta.versionId = (b.meta.bind BodyMeta.versionId).getD "1" ∧
        r.meta.lastUpdated = (b.meta.bind BodyMeta.lastUpdated).getD now ∧
        r.resourceType = b.resourceType ∧
        r.rest = b.rest ∧
        assocGet (fhirCreate t fid now b m).2 r.id = some r ∧
        (∀ k, k ≠ r.id → assocGet (fhirCreate t fid now b m).2 k = assocGet m k)) := by
  constructor
  · intro hb
    simp [fhirCreate, hb]
  · intro hb
    have hb' : ¬ b.resourceType ≠ some t := by simp [hb]
    refine ⟨storedOfBody b (jsOr b.id fid) (mkMeta b.meta "1" now),
      ?_, rfl, rfl, rfl, rfl, rfl, ?_, ?_⟩
    · simp [fhirCreate, hb']
    · simp only [fhirCreate, hb', if_neg, storedOfBody]
      exact assocGet_assocSet_self _ _ _
    · intro k hk
      simp only [fhirCreate, hb', if_neg]
      exact assocGet_assocSet_ne _ _ _ _ hk

/-- Witness for create_characterization: a mismatched body is rejected
with the table unchanged, and a plain Patient body is stored with
versionId 1. -/
theorem create_characterization_witness :
    fhirCreate "Patient" "f0" exNow exWrongTypeBody ([] : ResMap) =
      (Except.error (Failure.invalidResource "Resource must be of type Patient"), ([] : ResMap)) ∧
    resultVersionId (fhirCreate "Patient" "f0" exNow exPatientBody ([] : ResMap)).1 = some "1" := by
  constructor
  · exact (create_characterization "Patient" "f0" exNow exWrongTypeBody []).1 (by decide)
  · obtain ⟨r, h1, _, hv, _⟩ :=
      (create_characterization "Patient" "f0" exNow exPatientBody []).2 rfl
    rw [h1] at *
    simp only [resultVersionId, hv]
    decide

/-- C1 fails as stated: a create whose body meta carries its own
versionId and lastUpdated stores those values, not versionId 1 and the
current time. -/
theorem createPatient_clientMeta_overrides_cex :
    resultVersionId (fhirCreate "Patient" "fresh-id" exNow exBodyMetaOverride ([] : ResMap)).1 = some "7" ∧
    resultVersionId (fhirCreate "Patient" "fresh-id" exNow exBodyMetaOverride ([] : ResMap)).1 ≠ some "1" ∧
    resultLastUpdated (fhirCreate "Patient" "fresh-id" exNow exBodyMetaOverride ([] : ResMap)).1 =
      some "1999-01-01T00:00:00Z" ∧
    resultLastUpdated (fhirCreate "Patient" "fresh-id" exNow exBodyMetaOverride ([] : ResMap)).1 ≠
      some exNow := by
  decide

/-- C2 (amended): update of an absent id fails NotFound with the table
unchanged; update of a present id fully replaces the payload, stores
under the path id and returns the resource, whose versionId is the old
one parsed and incremented (the string NaN when unparseable) and
lastUpdated the current time, unless the body's own meta carries those
fields, which take precedence; consequently over any run of meta-free
updates to one id starting from a version that parses to n, the stored
version parses to n plus the number of updates (hence strictly
increases step by step) and lastUpdated is the clock of the last
update (hence non-decreasing whenever the clock is). -/
theorem update_characterization (t id now : String) (b : Body) (m : ResMap) :
    (assocGet m id = none →
      fhirUpdate t id now b m =
        (Except.error (Failure.notFound (t ++ " " ++ id ++ " not found")), m)) ∧
    (∀ old, assocGet m id = some old →
      ∃ r, (fhirUpdate t id now b m).1 = Except.ok r ∧
        r.id = id ∧
        r.meta.versionId = (b.meta.bind BodyMeta.versionId).getD (nextVersionId old.meta.versionId) ∧
        r.meta.lastUpdated = (b.meta.bind BodyMeta.lastUpdated).getD now ∧
        r.resourceType = b.resourceType ∧
        r.rest = b.rest ∧
        assocGet (fhirUpdate t id now b m).2 id = some r) ∧
    (∀ (steps : List (String × Body)) (old : Stored) (n : Nat),
      (∀ p ∈ steps, (p.2).meta = none) →
      assocGet m id = some old →
      jsParseInt old.meta.versionId = some n →
      ∃ r, assocGet (iterateUpdates t id steps m) id = some r ∧
        jsParseInt r.meta.versionId = some (n + steps.length) ∧
        r.meta.lastUpdated = steps.foldl (fun _ p => p.1) old.meta.lastUpdated) := by
  refine ⟨?_, ?_, ?_⟩
  · intro h
    simp [fhirUpdate, h]
  · intro old h
    refine ⟨storedOfBody b id (mkMeta b.meta (nextVersionId old.meta.versionId) now),
      ?_, rfl, rfl, rfl, rfl, rfl, ?_⟩
    · simp [fhirUpdate, h]
    · simp only [fhirUpdate, h]
      exact assocGet_assocSet_self _ _ _
  · intro steps old n hmeta hget hv
    exact iterateUpdates_meta t id steps m old n hmeta hget hv

/-- Witness for update_characterization: NotFound on an absent id, a
version bump from 3 to 4 on a meta-free update, and version 5 after
two meta-free updates starting from version 3. -/
theorem update_characterization_witness :
    fhirUpdate "Patient" "nope" exLater exPlainUpdBody exStore.patients =
      (Except.error (Failure.notFound "Patient nope not found"), exStore.patients) ∧
    resultVersionId (fhirUpdate "Patient" "p1" exLater exPlainUpdBody exStore.patients).1 = some "4" ∧
    tableVersionNat
      (iterateUpdates "Patient" "p1" [(exNow, exPlainUpdBody), (exLater, exPlainUpdBody)]
        exStore.patients) "p1" = some 5 := by
  refine ⟨?_, ?_, ?_⟩
  · exact (update_characterization "Patient" "nope" exLater exPlainUpdBody exStore.patients).1 rfl
  · obtain ⟨r, h1, _, hv, _⟩ :=
      (update_characterization "Patient" "p1" exLater exPlainUpdBody exStore.patients).2.1
        exStoredP1 rfl
    rw [h1] at *
    simp only [resultVersionId, hv]
    decide
  · obtain ⟨r, hg, hv, _⟩ :=
      (update_characterization "Patient" "p1" exLater exPlainUpdBody exStore.patients).2.2
        [(exNow, exPlainUpdBody), (exLater, exPlainUpdBody)] exStoredP1 3
        (by decide) rfl (by decide)
    simp [tableVersionNat, hg, hv]

/-- C2 fails as stated: an update whose body meta carries versionId 0
stores version 0 on a resource whose stored version was 3 — not the
increment to 4, and numerically a decrease. -/
theorem updatePatient_clientMeta_overrides_cex :
    resultVersionId (fhirUpdate "Patient" "p1" exLater exUpdBodyMetaZero exStore.patients).1 = some "0" ∧
    resultVersionId (fhirUpdate "Patient" "p1" exLater exUpdBodyMetaZero exStore.patients).1 ≠ some "4" ∧
    jsParseInt exStoredP1.meta.versionId = some 3 ∧
    jsParseInt "0" = some 0 := by
  decide

/-- C3: reading back the id of a resource returned by a successful
create yields exactly that resource (round trip through the store with
no intervening operations). -/
theorem create_read_roundtrip (t fid now : String) (b : Body) (m : ResMap) (r : Stored)
    (h : (fhirCreate t fid now b m).1 = Except.ok r) :
    fhirRead t r.id (fhirCreate t fid now b m).2 = Except.ok r := by
  by_cases hb : b.resourceType ≠ some t
  · simp [fhirCreate, hb] at h
  · have hr : storedOfBody b (jsOr b.id fid) (mkMeta b.meta "1" now) = r := by
      simpa [fhirCreate, hb] using h
    have hid : r.id = jsOr b.id fid := by
      rw [← hr]
      rfl
    have hm : (fhirCreate t fid now b m).2 =
        assocSet m (jsOr b.id fid) (storedOfBody b (jsOr b.id fid) (mkMeta b.meta "1" now)) := by
      simp [fhirCreate, hb]
    rw [hm, hr, fhirRead, hid, assocGet_assocSet_self]

/-- Witness for create_read_roundtrip at a concrete Patient create. -/
theorem create_read_roundtrip_witness :
    fhirRead "Patient"
      (storedOfBody exPatientBody "p1" { versionId := "1", lastUpdated := exNow }).id
      (fhirCreate "Patient" "f0" exNow exPatientBody ([] : ResMap)).2 =
      Except.ok (storedOfBody exPatientBody "p1" { versionId := "1", lastUpdated := exNow }) :=
  create_read_roundtrip "Patient" "f0" exNow exPatientBody [] _ rfl

/-- C4: every search handler returns a Bundle of type searchset whose
total is the number of stored resources matching the active filters
before pagination, and whose entries are the matches sliced by offset
and count with default count 20; in particular the laboratory
Observation scenario with three matching resources, count 1 and offset
0 returns total 3 and one entry. -/
theorem search_bundle_characterization :
    (∀ (patient category date code : Option String) (count offset : Option Nat) (s : Store),
      searchObservations patient category date code count offset s =
        { resourceType := "Bundle", type := "searchset"
          total := ((assocValues s.observations).filter (obsMatches patient category date code)).length
          entry := (((assocValues s.observations).filter (obsMatches patient category date code)).drop
            (offset.getD 0)).take (count.getD 20) }) ∧
    (∀ (patient clinicalStatus onsetDate : Option String) (count offset : Option Nat) (s : Store),
      searchConditions patient clinicalStatus onsetDate count offset s =
        { resourceType := "Bundle", type := "searchset"
          total := ((assocValues s.conditions).filter (condMatches patient clinicalStatus onsetDate)).length
          entry := (((assocValues s.conditions).filter (condMatches patient clinicalStatus onsetDate)).drop
            (offset.getD 0)).take (count.getD 20) }) ∧
    (∀ (nameQ birthdate gender : Option String) (count offset : Option Nat) (s : Store),
      searchPatients nameQ birthdate gender count offset s =
        { resourceType := "Bundle", type := "searchset"
          total := ((assocValues s.patients).filter (patMatches nameQ birthdate gender)).length
          entry := (((assocValues s.patients).filter (patMatches nameQ birthdate gender)).drop
            (offset.getD 0)).take (count.getD 20) }) ∧
    (∀ (count offset : Option Nat) (s : Store),
      searchMedications count offset s =
        { resourceType := "Bundle", type := "searchset"
          total := (assocValues s.medications).length
          entry := ((assocValues s.medications).drop (offset.getD 0)).take (count.getD 20) }) ∧
    (searchObservations (some "123") (some "laboratory") none none (some 1) (some 0)
      exScenarioStore).total = 3 ∧
    (searchObservations (some "123") (some "laboratory") none none (some 1) (some 0)
      exScenarioStore).entry.length = 1 := by
  refine ⟨?_, ?_, ?_, ?_, by decide, by decide⟩
  · intro patient category date code count offset s
    rw [searchObservations_eq]
    rfl
  · intro patient clinicalStatus onsetDate count offset s
    rw [searchConditions_eq]
    rfl
  · intro nameQ birthdate gender count offset s
    rw [searchPatients_eq]
    rfl
  · intro count offset s
    rfl

/-- C5: patient-everything fails NotFound when the patient is absent,
and otherwise returns one Bundle whose entries are exactly the patient
followed by the stored Observations and Conditions whose subject
reference is that patient (and nothing else), with total equal to the
entry count. -/
theorem patientEverything_characterization (pid : String) (s : Store) :
    (assocGet s.patients pid = none →
      patientEverything pid s =
        Except.error (Failure.notFound ("Patient " ++ pid ++ " not found"))) ∧
    (∀ p, assocGet s.patients pid = some p →
      ∃ B, patientEverything pid s = Except.ok B ∧
        B.resourceType = "Bundle" ∧ B.type = "searchset" ∧
        B.total = B.entry.length ∧
        B.entry.head? = some p ∧
        (∀ r, r ∈ B.entry ↔ (r = p ∨
          (r ∈ assocValues s.observations ∧ subjectMatches pid r = true) ∨
          (r ∈ assocValues s.conditions ∧ subjectMatches pid r = true)))) := by
  constructor
  · intro h
    simp [patientEverything, h]
  · intro p hp
    have hE : patientEverything pid s = Except.ok
        { resourceType := "Bundle", type := "searchset"
          total := (p :: ((assocValues s.observations).filter (subjectMatches pid) ++
            (assocValues s.conditions).filter (subjectMatches pid))).length
          entry := p :: ((assocValues s.observations).filter (subjectMatches pid) ++
            (assocValues s.conditions).filter (subjectMatches pid)) } := by
      simp [patientEverything, hp]
    refine ⟨_, hE, rfl, rfl, rfl, rfl, ?_⟩
    intro r
    simp [List.mem_cons, List.mem_append, List.mem_filter]

/-- Witness for patientEverything_characterization: NotFound for an
unknown patient, and a Bundle for the stored one. -/
theorem patientEverything_characterization_witness :
    patientEverything "nope" exEverythingStore =
      Except.error (Failure.notFound "Patient nope not found") ∧
    (patientEverything "p1" exEverythingStore).toOption.isSome = true := by
  constructor
  · exact (patientEverything_characterization "nope" exEverythingStore).1 rfl
  · obtain ⟨B, hB, _⟩ :=
      (patientEverything_characterization "p1" exEverythingStore).2 exStoredP1 rfl
    simp [hB, Except.toOption]

/-- C6 (amended): reads, updates, searches and everything are pure
functions of the store and the arguments, and create does not depend
on the random fresh id whenever the body carries a truthy id of its
own; but create without a body id returns the random id, and the risk
evaluation operations read Math.random, so their outputs differ for
identical inputs under different draws — the blanket determinism claim
fails for them. -/
theorem determinism_characterization :
    (∀ (t fid fid' now : String) (b : Body) (m : ResMap),
      strTruthy b.id = true →
      fhirCreate t fid now b m = fhirCreate t fid' now b m) ∧
    simulateLifestyleRisk "patient-data" 0 1 1 1 ≠
      simulateLifestyleRisk "patient-data" 1 1 1 1 ∧
    calculateRiskAssessment "u1" "usr" exNow "pd" 0 1 1 1 ≠
      calculateRiskAssessment "u1" "usr" exNow "pd" (1/2) 1 1 1 := by
  refine ⟨?_, ?_, ?_⟩
  · intro t fid fid' now b m h
    unfold fhirCreate
    rw [jsOr_irrel b.id fid fid' h]
  · intro h
    have hs := congrArg RiskResult.riskScore h
    have h1 : ((0 : ℚ) < 0.15) := by norm_num
    have h2 : ¬ ((1 : ℚ) < 0.15) := by norm_num
    have h3 : ¬ ((1 : ℚ) < 0.3) := by norm_num
    have h4 : ¬ ((1 : ℚ) < 0.4) := by norm_num
    simp [simulateLifestyleRisk, h1, h2, h3, h4] at hs
  · intro h
    have hs := congrArg (fun a => a.risks.diabetes) h
    simp [calculateRiskAssessment] at hs
    norm_num at hs

/-- Witness for determinism_characterization: create with a body id is
independent of the fresh-id draw. -/
theorem determinism_characterization_witness :
    fhirCreate "Patient" "fA" exNow exPatientBody ([] : ResMap) =
      fhirCreate "Patient" "fB" exNow exPatientBody ([] : ResMap) :=
  determinism_characterization.1 "Patient" "fA" "fB" exNow exPatientBody [] (by decide)

/-- C6 fails as stated: identical patient data, different random draws,
different lifestyle risk output. -/
theorem risk_random_nondeterminism_cex :
    simulateLifestyleRisk "patient-data" 0 1 1 1 ≠
      simulateLifestyleRisk "patient-data" 1 1 1 1 := by
  intro h
  have hs := congrArg RiskResult.riskScore h
  have h1 : ((0 : ℚ) < 0.15) := by norm_num
  have h2 : ¬ ((1 : ℚ) < 0.15) := by norm_num
  have h3 : ¬ ((1 : ℚ) < 0.3) := by norm_num
  have h4 : ¬ ((1 : ℚ) < 0.4) := by norm_num
  simp [simulateLifestyleRisk, h1, h2, h3, h4] at hs

/-- C7: no route removes a stored (resourceType, id) pair — after any
sequence of requests against the service, a pair that was present is
still present and a read of it succeeds. -/
theorem no_delete_reads_succeed (t : RType) (id : String) (s : Store) (ops : List Op)
    (r0 : Stored) (h : assocGet (s.mapFor t) id = some r0) :
    ∃ r, readFor t id (applyOps ops s) = Except.ok r := by
  have h1 : (assocGet (s.mapFor t) id).isSome := by simp [h]
  obtain ⟨r, hr⟩ := Option.isSome_iff_exists.mp (applyOps_preserves ops t id s h1)
  exact ⟨r, by simp [readFor, fhirRead, hr]⟩

/-- Witness for no_delete_reads_succeed: the stored patient is still
readable after an update, a create and a read. -/
theorem no_delete_reads_succeed_witness :
    (readFor RType.patient "p1"
      (applyOps [Op.updatePatientOp "p1" exLater exPlainUpdBody,
                 Op.createObservationOp "o9" exLater exWrongTypeBody,
                 Op.getPatientOp "p1"] exStore)).toOption.isSome = true := by
  obtain ⟨r, hr⟩ := no_delete_reads_succeed RType.patient "p1" exStore
    [Op.updatePatientOp "p1" exLater exPlainUpdBody,
     Op.createObservationOp "o9" exLater exWrongTypeBody,
     Op.getPatientOp "p1"] exStoredP1 rfl
  simp [hr, Except.toOption]

/-- C8 (amended): create with a well-typed body whose id is truthy and
collides with a stored resource of that type does not fail: the
existing resource is silently replaced (upsert) with no conflict
error, and the replacement's meta restarts at versionId 1 and
lastUpdated now unless the body's own meta carries those fields, which
are stored instead. -/
theorem create_upsert_characterization (t fid now : String) (b : Body) (m : ResMap)
    (old : Stored) (id : String) (hid : b.id = some id) (hne : id ≠ "")
    (_hold : assocGet m id = some old) (htype : b.resourceType = some t) :
    ∃ r, (fhirCreate t fid now b m).1 = Except.ok r ∧ r.id = id ∧
      assocGet (fhirCreate t fid now b m).2 id = some r ∧
      r.meta.versionId = (b.meta.bind BodyMeta.versionId).getD "1" ∧
      r.meta.lastUpdated = (b.meta.bind BodyMeta.lastUpdated).getD now := by
  have hb' : ¬ b.resourceType ≠ some t := by simp [htype]
  have hjs : jsOr b.id fid = id := by simp [jsOr, hid, hne]
  refine ⟨storedOfBody b (jsOr b.id fid) (mkMeta b.meta "1" now), ?_, ?_, ?_, rfl, rfl⟩
  · simp [fhirCreate, hb']
  · simp [storedOfBody, hjs]
  · simp only [fhirCreate, hb', if_neg]
    rw [show jsOr b.id fid = id from hjs] at *
    exact assocGet_assocSet_self _ _ _

/-- Witness for create_upsert_characterization: creating over the
stored patient p1 succeeds and stores the body's own meta values. -/
theorem create_upsert_characterization_witness :
    resultVersionId (fhirCreate "Patient" "f0" exLater exBodyReuseId exStore.patients).1 =
      some "9" ∧
    resultLastUpdated (fhirCreate "Patient" "f0" exLater exBodyReuseId exStore.patients).1 =
      some exLater := by
  obtain ⟨r, h1, _, _, hv, hl⟩ := create_upsert_characterization "Patient" "f0" exLater
    exBodyReuseId exStore.patients exStoredP1 "p1" rfl (by decide) rfl rfl
  rw [h1] at *
  constructor
  · simp only [resultVersionId, hv]
    decide
  · simp only [resultLastUpdated, hl]
    decide

/-- C8 fails as stated: an upsert whose body meta carries versionId 9
restarts the stored version history at 9, not at 1. -/
theorem create_upsert_versionId_cex :
    resultVersionId (fhirCreate "Patient" "f0" exLater exBodyReuseId exStore.patients).1 =
      some "9" ∧
    resultVersionId (fhirCreate "Patient" "f0" exLater exBodyReuseId exStore.patients).1 ≠
      some "1" := by
  decide

/-- C9: update performs no resourceType validation — any body, with a
mismatched or even absent resourceType, is accepted whenever the id
exists and stored with that resourceType verbatim; only create rejects
type mismatches. -/
theorem update_skips_type_validation :
    (∀ (t id now : String) (b : Body) (m : ResMap) (old : Stored),
      assocGet m id = some old →
      ∃ r, (fhirUpdate t id now b m).1 = Except.ok r ∧ r.resourceType = b.resourceType) ∧
    (∀ (t fid now : String) (b : Body) (m : ResMap),
      b.resourceType ≠ some t →
      (fhirCreate t fid now b m).1 =
        Except.error (Failure.invalidResource ("Resource must be of type " ++ t))) := by
  constructor
  · intro t id now b m old hget
    refine ⟨storedOfBody b id (mkMeta b.meta (nextVersionId old.meta.versionId) now), ?_, rfl⟩
    simp [fhirUpdate, hget]
  · intro t fid now b m hb
    simp [fhirCreate, hb]

/-- Witness for update_skips_type_validation: a body typed Observation
is accepted by the Patient update, while the Patient create rejects
it. -/
theorem update_skips_type_validation_witness :
    (resultVersionId (fhirUpdate "Patient" "p1" exLater exWrongTypeBody exStore.patients).1).isSome
      = true ∧
    (fhirCreate "Patient" "f0" exLater exWrongTypeBody ([] : ResMap)).1 =
      Except.error (Failure.invalidResource "Resource must be of type Patient") := by
  constructor
  · obtain ⟨r, hr, _⟩ := update_skips_type_validation.1 "Patient" "p1" exLater
      exWrongTypeBody exStore.patients exStoredP1 rfl
    simp [hr, resultVersionId]
  · exact update_skips_type_validation.2 "Patient" "f0" exLater exWrongTypeBody [] (by decide)

/-- C10: a successful update stores the resource under the path id
(even when the body carries a different id) and leaves every other
store entry — same-type entries at other ids and the other three
tables — unchanged. -/
theorem update_id_and_frame (id now : String) (b : Body) (s : Store) (old : Stored)
    (h : assocGet s.patients id = some old) :
    ∃ r, (updatePatient id now b s).1 = Except.ok r ∧ r.id = id ∧
      assocGet (updatePatient id now b s).2.patients id = some r ∧
      (∀ k, k ≠ id → assocGet (updatePatient id now b s).2.patients k = assocGet s.patients k) ∧
      (updatePatient id now b s).2.observations = s.observations ∧
      (updatePatient id now b s).2.conditions = s.conditions ∧
      (updatePatient id now b s).2.medications = s.medications := by
  refine ⟨storedOfBody b id (mkMeta b.meta (nextVersionId old.meta.versionId) now),
    ?_, rfl, ?_, ?_, rfl, rfl, rfl⟩
  · simp [updatePatient, fhirUpdate, h]
  · simp only [updatePatient, fhirUpdate, h]
    exact assocGet_assocSet_self _ _ _
  · intro k hk
    simp only [updatePatient, fhirUpdate, h]
    exact assocGet_assocSet_ne _ _ _ _ hk

/-- Witness for update_id_and_frame: the body carries id ignored-id but
the resource is stored at p1; an unrelated key is unaffected. -/
theorem update_id_and_frame_witness :
    (resultVersionId (updatePatient "p1" exLater exPlainUpdBody exStore).1).isSome = true ∧
    assocGet (updatePatient "p1" exLater exPlainUpdBody exStore).2.patients "zzz" =
      assocGet exStore.patients "zzz" := by
  obtain ⟨r, h1, _, _, h4, _⟩ :=
    update_id_and_frame "p1" exLater exPlainUpdBody exStore exStoredP1 rfl
  exact ⟨by simp [h1, resultVersionId], h4 "zzz" (by decide)⟩

end OneCare
